import Mathlib

/-!
Shallow embedding of `src/helpers/index.js` of the dydx.vote repository.

The module is a signature-relay backend: it builds EIP-712 typed messages
for dYdX governance votes and delegations, recovers the signer of a
submitted signature, checks eligibility against chain and database state,
and persists pending transactions.

Modelling conventions:
* External collaborators (web3 contract calls, the database helpers, the
  notification webhook) are oracles collected in an `Env` structure; each
  remote call is a function returning `Except Err α` (a rejected promise
  is `Except.error`).
* JavaScript errors are `Err`: a message plus an optional numeric `code`
  property.  Runtime errors (`TypeError`, `ReferenceError`) have no
  numeric `code`, hence `code = none`.
* JavaScript numbers that the code obtains via `parseInt` of decimal
  strings (balances, voting power, blocks, MIN_COMP) are modelled as
  naturals; the one subtraction (`proposal.endBlock - 2400`) is taken in
  `Int`, as in JS number arithmetic.
* JS strings are Lean `String`s.  Because the built-in `String.toLower`,
  `String.drop` and `String.startsWith` do not reduce in the kernel, the
  JS string methods are embedded through the character list `String.data`
  (`jsToLowerCase`, `jsSubstring2`); for the ASCII strings this code
  handles these agree with the JS UTF-16 code-unit semantics.
* Database inserts and the webhook GET are recorded in an effect trace;
  each entry point returns its result together with the trace.
-/

/-- A JavaScript error value as this codebase uses it: a message and an
optional numeric `code` property.  `typeof error.code == "number"` is
`code = some n`. -/
structure Err where
  msg : String
  code : Option Nat
deriving DecidableEq, Repr

/-- JS `String.prototype.toLowerCase()` (ASCII range, which is all this
codebase ever lowercases). -/
def jsToLowerCase (s : String) : String := ⟨s.data.map Char.toLower⟩

/-- JS `String.prototype.substring(2)`, used to strip the `0x` prefix of
the `s` and `v` signature components. -/
def jsSubstring2 (s : String) : String := ⟨s.data.drop 2⟩

def isLowerHexDigit (c : Char) : Bool :=
  (('0' ≤ c) && (c ≤ '9')) || (('a' ≤ c) && (c ≤ 'f'))

def isUpperHexDigit (c : Char) : Bool :=
  (('0' ≤ c) && (c ≤ '9')) || (('A' ≤ c) && (c ≤ 'F'))

/-- `web3.utils.isAddress`: an optional `0x` prefix followed by exactly 40
hex digits, all lowercase or all uppercase.  The remaining mixed-case
branch of web3 (checksum validation) is unreachable from this codebase:
both call sites lowercase the argument first, so it is not modelled. -/
def isAddress (s : String) : Bool :=
  let body := if s.data.take 2 = ['0', 'x'] then s.data.drop 2 else s.data
  (body.length == 40) && (body.all isLowerHexDigit || body.all isUpperHexDigit)

/-- One field of an EIP-712 type declaration, e.g. `{ name: "id", type:
"uint256" }`. -/
structure TypeField where
  name : String
  type : String
deriving DecidableEq, Repr

/-- An EIP-712 domain descriptor.  The vote message has no `version`
field; the delegation message sets `version: 1` (a number literal in the
source, despite the declared `string` type). -/
structure Domain where
  name : String
  version : Option Nat
  chainId : Nat
  verifyingContract : String
deriving DecidableEq, Repr

/-- The `message` member of a typed-data document. -/
inductive MessageBody where
  | voteEmitted (id : Nat) (support : Bool)
  | delegation (delegatee : String) (nonce : Nat) (expiry : Nat)
deriving DecidableEq, Repr

/-- An EIP-712 typed-data document as built by the two message builders. -/
structure TypedData where
  types : List (String × List TypeField)
  primaryType : String
  domain : Domain
  message : MessageBody
deriving DecidableEq, Repr

/-- `createVoteBySigMessage(id, support)` (lines 52-80). -/
def createVoteBySigMessage (id : Nat) (support : Bool) : TypedData :=
  { types :=
      [("EIP712Domain",
         [{ name := "name", type := "string" },
          { name := "chainId", type := "uint256" },
          { name := "verifyingContract", type := "address" }]),
       ("VoteEmitted",
         [{ name := "id", type := "uint256" },
          { name := "support", type := "bool" }])],
    primaryType := "VoteEmitted",
    domain :=
      { name := "dYdX Governance", version := none, chainId := 1,
        verifyingContract := "0x7E9B1672616FF6D6629Ef2879419aaE79A9018D2" },
    message := MessageBody.voteEmitted id support }

/-- `createDelegateBySigMessage(delegatee, nonce, expiry)` (lines 87-121). -/
def createDelegateBySigMessage (delegatee : String) (nonce : Nat) (expiry : Nat) :
    TypedData :=
  { types :=
      [("EIP712Domain",
         [{ name := "name", type := "string" },
          { name := "version", type := "string" },
          { name := "chainId", type := "uint256" },
          { name := "verifyingContract", type := "address" }]),
       ("Delegate",
         [{ name := "delegatee", type := "address" },
          { name := "nonce", type := "uint256" },
          { name := "expiry", type := "uint256" }])],
    primaryType := "Delegate",
    domain :=
      { name := "dYdX", version := some 1, chainId := 1,
        verifyingContract := "0x92D6C1e31e14520e676a687F0a93788B716BEff5" },
    message := MessageBody.delegation delegatee nonce expiry }

/-- On-chain proposal data returned by `governor.methods.getProposalById`. -/
structure Proposal where
  startBlock : Nat
  endBlock : Nat
  canceled : Bool
deriving DecidableEq, Repr

/-- Vote receipt returned by `getVoteOnProposal`. -/
structure Receipt where
  votingPower : Nat
deriving DecidableEq, Repr

/-- The environment of external collaborators: configuration, the chain
client, the database helpers, the signature-recovery library and the
webhook.  Each remote call is an oracle returning `Except Err α`. -/
structure Env where
  MIN_COMP : Nat
  NOTIFICATION_HOOK : Option String
  balanceOf : String → Except Err Nat
  getDelegateeByType : String → Nat → Except Err String
  delegationAllowed : String → Except Err Unit
  getProposalById : Nat → Except Err Proposal
  getVoteOnProposal : Nat → String → Except Err Receipt
  getBlockNumber : Except Err Nat
  voteAllowed : String → Nat → Except Err Unit
  getPowerAtBlock : String → Nat → Nat → Except Err Nat
  recoverTypedSignature : TypedData → String → Except Err String
  axiosGet : String → Except Err Unit
  now : Nat

/-- The error-translation `catch` block that `canDelegate`, `canVote`,
`vote` and `delegate` all repeat: an error whose `code` property is a
number is rethrown unchanged, any other error is replaced by the generic
blockchain error with code 500 (lines 175-186, 260-270, 357-367, 444-454). -/
def wrapChainError (e : Err) : Err :=
  match e.code with
  | some _ => e
  | none => { msg := "error fetching data from blockchain", code := some 500 }

def invalidInputError : Err := { msg := "invalid input", code := some 422 }

def invalidAddressInputError : Err := { msg := "invalid address input", code := some 422 }

def invalidDelegateeAddressError : Err := { msg := "invalid delegatee address", code := some 422 }

def invalidFromAddressError : Err := { msg := "invalid from address", code := some 422 }

def blockchainError : Err := { msg := "error fetching data from blockchain", code := some 500 }

def balanceTooLowError : Err := { msg := "dYdX balance too low", code := some 403 }

def noOpDelegationError : Err := { msg := "delegatee can not be current delegatee", code := some 403 }

def proposalNotActiveError : Err := { msg := "proposal voting period is not active", code := some 400 }

def votingPowerTooLowError : Err := { msg := "dYdX voting power is too low", code := some 403 }

def alreadyVotedError : Err := { msg := "address already voted", code := some 400 }

def invalidSignatureError : Err := { msg := "invalid signature", code := some 422 }

def signerMismatchError : Err := { msg := "given address does not match signer address", code := some 422 }

/-- The `TypeError` raised by line 134, `address.toString()`, when
`address` is `undefined`.  It carries no numeric `code`. -/
def undefinedToStringTypeError : Err :=
  { msg := "TypeError: cannot read properties of undefined", code := none }

/-- The `ReferenceError` raised by line 249: the identifier
`governorBravo` is not defined anywhere in the module (`Web3Handler`
provides only `governor`).  It carries no numeric `code`. -/
def governorBravoRefError : Err :=
  { msg := "governorBravo is not defined", code := none }

/-- `isWhitelisted(address)` (lines 303-309): the hard-coded exemption
list checked by the voting-power rule. -/
def isWhitelisted (address : String) : Bool :=
  ["0x5b3bffc0bcf8d4caec873fdcf719f60725767c98",
   "0x2b384212edc04ae8bb41738d05ba20e33277bf33"].contains address

/-- The values produced by the `Promise.all` fan-out of `canDelegate`
(lines 163-174): token balance, delegate-for-voting (type 0) and
delegate-for-proposition (type 1).  The fourth promise,
`delegationAllowed(address)`, has its resolution value discarded by the
three-element destructuring; only its rejection matters. -/
structure DelegateFetch where
  dydxBalance : Nat
  currentDelegateeVoting : String
  currentDelegateeProposition : String
deriving DecidableEq, Repr

/-- The `try` block of `canDelegate` (lines 163-186, before error
translation): the four concurrent reads, failing with the first error. -/
def canDelegateFetch (env : Env) (address : String) : Except Err DelegateFetch := do
  let dydxBalance ← env.balanceOf address
  let currentDelegateeVoting ← env.getDelegateeByType address 0
  let currentDelegateeProposition ← env.getDelegateeByType address 1
  let _ ← env.delegationAllowed address
  pure { dydxBalance := dydxBalance,
         currentDelegateeVoting := currentDelegateeVoting,
         currentDelegateeProposition := currentDelegateeProposition }

/-- `canDelegate(address, delegatee = "0x")` (lines 128-208).

The JS default parameter turns an absent/`undefined` delegatee into the
sentinel `"0x"`.  Note the order of lines 133-141: `address.toString()`
runs before the `address === undefined` test, so an `undefined` address
raises a `TypeError` and the "invalid address input" branch is dead
code. -/
def canDelegate (env : Env) (address? : Option String) (delegatee? : Option String) :
    Except Err Unit :=
  let delegatee := jsToLowerCase (delegatee?.getD "0x")
  match address? with
  | none => Except.error undefinedToStringTypeError
  | some addressRaw =>
    let address := jsToLowerCase addressRaw
    if delegatee ≠ "0x" ∧ isAddress delegatee = false then
      Except.error invalidDelegateeAddressError
    else if isAddress address = false then
      Except.error invalidFromAddressError
    else
      match canDelegateFetch env address with
      | Except.error e => Except.error (wrapChainError e)
      | Except.ok d =>
        if d.dydxBalance < env.MIN_COMP then
          Except.error balanceTooLowError
        else if delegatee ≠ "0x" ∧
            delegatee = jsToLowerCase d.currentDelegateeVoting ∧
            delegatee = jsToLowerCase d.currentDelegateeProposition then
          Except.error noOpDelegationError
        else
          Except.ok ()

/-- The values the `try` block of `canVote` (lines 244-259) is meant to
produce: proposal data, vote receipt, current block, and the dependent
voting-power-at-start-block read. -/
structure CanVoteData where
  proposal : Proposal
  receipt : Receipt
  currentBlock : Nat
  votesDelegated : Nat
deriving DecidableEq, Repr

/-- The `try` block of `canVote` (lines 244-259).  The `Promise.all`
argument list is evaluated left to right: the
`governor.methods.getProposalById(proposalId).call()` promise is created,
and then the expression `governorBravo.methods.getVoteOnProposal(...)`
raises a `ReferenceError` synchronously, because `governorBravo` is not
defined anywhere in the module.  `web3.eth.getBlockNumber()`,
`voteAllowed(...)` and the dependent `getPowerAtBlock` read are never
issued, and the fetch never succeeds. -/
def canVoteFetch (env : Env) (address : String) (proposalId : Nat) :
    Except Err CanVoteData :=
  let _proposalPromise := env.getProposalById proposalId
  Except.error governorBravoRefError

/-- The business-rule checks of `canVote` (lines 272-301), as a function
of the fetched chain data: the proposal-window check with its 2400-block
relay buffer, the minimum-voting-power check with the whitelist
exemption, and the already-voted check.  `proposal.endBlock - 2400` is JS
number arithmetic, taken in `Int`. -/
def canVoteChecks (env : Env) (address : String) (d : CanVoteData) : Except Err Unit :=
  if ¬(d.proposal.startBlock < d.currentBlock ∧
        (d.currentBlock : Int) < (d.proposal.endBlock : Int) - 2400) ∨
      d.proposal.canceled = true then
    Except.error proposalNotActiveError
  else if d.votesDelegated < env.MIN_COMP ∧ isWhitelisted address = false then
    Except.error votingPowerTooLowError
  else if 0 < d.receipt.votingPower then
    Except.error alreadyVotedError
  else
    Except.ok ()

/-- `canVote(address, proposalId)` (lines 215-301): input validation,
then the fetch (which always raises the `governorBravo` reference error),
translated by the `catch` block, then the business-rule checks. -/
def canVote (env : Env) (address? : Option String) (proposalId? : Option Nat) :
    Except Err Unit :=
  match address?, proposalId? with
  | some addressRaw, some proposalId =>
    let address := jsToLowerCase addressRaw
    if isAddress address = false then
      Except.error invalidFromAddressError
    else
      match canVoteFetch env address proposalId with
      | Except.error e => Except.error (wrapChainError e)
      | Except.ok d => canVoteChecks env address d
  | _, _ => Except.error invalidInputError

/-- The pending vote transaction object built by `vote` (lines 370-380). -/
structure VoteTx where
  «from» : String
  v : String
  r : String
  s : String
  support : Bool
  proposalId : Nat
  type : String
  createdAt : Nat
  executed : Bool
deriving DecidableEq, Repr

/-- The pending delegation transaction object built by `delegate`
(lines 457-468). -/
structure DelegateTx where
  «from» : String
  delegatee : String
  v : String
  r : String
  s : String
  nonce : Nat
  expiry : Nat
  type : String
  createdAt : Nat
  executed : Bool
deriving DecidableEq, Repr

/-- An externally visible side effect of an entry point: a database
insert or an issued webhook GET request. -/
inductive Effect where
  | insertVote (tx : VoteTx)
  | insertDelegate (tx : DelegateTx)
  | notify (url : String)
deriving DecidableEq, Repr

/-- Result of an entry point together with its effect trace. -/
abbrev Outcome := Except Err Unit × List Effect

/-- `vote(address, proposalId, support, v, r, s)` (lines 320-389):
undefined-input check, address normalization, message construction,
signature recovery (the `catch` maps any recovery failure to the
"invalid signature" 422 error), case-insensitive signer match, the
`canVote` eligibility check behind its error-translation `catch`, the
database insert, and the awaited, uncaught notification GET. -/
def vote (env : Env) (address? : Option String) (proposalId? : Option Nat)
    (support? : Option Bool) (v? : Option String) (r? : Option String)
    (s? : Option String) : Outcome :=
  match address?, proposalId?, support?, v?, r?, s? with
  | some addressRaw, some proposalId, some support, some v, some r, some s =>
    let address := jsToLowerCase addressRaw
    let data := createVoteBySigMessage proposalId support
    match env.recoverTypedSignature data (r ++ jsSubstring2 s ++ jsSubstring2 v) with
    | Except.error _ => (Except.error invalidSignatureError, [])
    | Except.ok sigAddressRaw =>
      let sigAddress := jsToLowerCase sigAddressRaw
      if address ≠ sigAddress then
        (Except.error invalidSignatureError, [])
      else
        match canVote env (some address) (some proposalId) with
        | Except.error e => (Except.error (wrapChainError e), [])
        | Except.ok _ =>
          let newTx : VoteTx :=
            { «from» := address, v := v, r := r, s := s, support := support,
              proposalId := proposalId, type := "vote", createdAt := env.now,
              executed := false }
          match env.NOTIFICATION_HOOK with
          | none => (Except.ok (), [Effect.insertVote newTx])
          | some hook =>
            let url := hook ++ "New dydx.vote voting sig"
            match env.axiosGet url with
            | Except.ok _ => (Except.ok (), [Effect.insertVote newTx, Effect.notify url])
            | Except.error e => (Except.error e, [Effect.insertVote newTx, Effect.notify url])
  | _, _, _, _, _, _ => (Except.error invalidInputError, [])

/-- `delegate(address, delegatee, nonce, expiry, v, r, s)` (lines
401-479): same shape as `vote`, with the delegation message, the
distinct "given address does not match signer address" mismatch message,
the `canDelegate` eligibility check, the database insert, and the
awaited, uncaught notification GET. -/
def delegate (env : Env) (address? : Option String) (delegatee? : Option String)
    (nonce? : Option Nat) (expiry? : Option Nat) (v? : Option String)
    (r? : Option String) (s? : Option String) : Outcome :=
  match address?, delegatee?, nonce?, expiry?, v?, r?, s? with
  | some addressRaw, some delegateeRaw, some nonce, some expiry, some v, some r, some s =>
    let address := jsToLowerCase addressRaw
    let delegatee := jsToLowerCase delegateeRaw
    let data := createDelegateBySigMessage delegatee nonce expiry
    match env.recoverTypedSignature data (r ++ jsSubstring2 s ++ jsSubstring2 v) with
    | Except.error _ => (Except.error invalidSignatureError, [])
    | Except.ok sigAddressRaw =>
      let sigAddress := jsToLowerCase sigAddressRaw
      if sigAddress ≠ address then
        (Except.error signerMismatchError, [])
      else
        match canDelegate env (some address) (some delegatee) with
        | Except.error e => (Except.error (wrapChainError e), [])
        | Except.ok _ =>
          let newTx : DelegateTx :=
            { «from» := address, delegatee := delegatee, v := v, r := r, s := s,
              nonce := nonce, expiry := expiry, type := "delegate",
              createdAt := env.now, executed := false }
          match env.NOTIFICATION_HOOK with
          | none => (Except.ok (), [Effect.insertDelegate newTx])
          | some hook =>
            let url := hook ++ "New dydx.vote delegation sig"
            match env.axiosGet url with
            | Except.ok _ => (Except.ok (), [Effect.insertDelegate newTx, Effect.notify url])
            | Except.error e => (Except.error e, [Effect.insertDelegate newTx, Effect.notify url])
  | _, _, _, _, _, _, _ => (Except.error invalidInputError, [])

theorem char_toNat_ofNat_of_valid (n : Nat) (h : n < 55296) : (Char.ofNat n).toNat = n := by
  rw [Char.ofNat, dif_pos (Or.inl h)]
  simp [Char.ofNatAux, Char.toNat, UInt32.toNat, BitVec.ofNatLt]

theorem charToLower_idem (c : Char) : c.toLower.toLower = c.toLower := by
  unfold Char.toLower
  by_cases h : c.toNat ≥ 65 ∧ c.toNat ≤ 90
  · rw [if_pos h]
    have hv : (Char.ofNat (c.toNat + 32)).toNat = c.toNat + 32 :=
      char_toNat_ofNat_of_valid _ (by omega)
    rw [if_neg (by omega)]
  · rw [if_neg h, if_neg h]

@[simp] theorem jsToLowerCase_idem (s : String) :
    jsToLowerCase (jsToLowerCase s) = jsToLowerCase s := by
  simp only [jsToLowerCase, List.map_map]
  congr 1
  apply List.map_congr_left
  intro c _
  exact charToLower_idem c

def sampleAddress : String := "0xaaaaaaaaaaaaaaaaaaaaaaaaaaaaaaaaaaaaaaaa"

def sampleDelegatee : String := "0xbbbbbbbbbbbbbbbbbbbbbbbbbbbbbbbbbbbbbbbb"

def zeroAddress : String := "0x0000000000000000000000000000000000000000"

/-- A concrete collaborator environment satisfying every eligibility
precondition of the spec's happy-path scenario: balance and voting power
150 against threshold 100, an active proposal window (start block 100,
end block 10000, current block 101), a zero vote receipt, no pending
database rows, a recovery oracle attributing every signature to
`sampleAddress`, and no notification webhook configured. -/
def happyEnv : Env :=
  { MIN_COMP := 100,
    NOTIFICATION_HOOK := none,
    balanceOf := fun _ => Except.ok 150,
    getDelegateeByType := fun _ _ => Except.ok zeroAddress,
    delegationAllowed := fun _ => Except.ok (),
    getProposalById := fun _ =>
      Except.ok { startBlock := 100, endBlock := 10000, canceled := false },
    getVoteOnProposal := fun _ _ => Except.ok { votingPower := 0 },
    getBlockNumber := Except.ok 101,
    voteAllowed := fun _ _ => Except.ok (),
    getPowerAtBlock := fun _ _ _ => Except.ok 150,
    recoverTypedSignature := fun _ _ => Except.ok sampleAddress,
    axiosGet := fun _ => Except.ok (),
    now := 0 }

/-- `happyEnv` with a notification webhook configured whose GET request
fails with a plain network error (no numeric `code`). -/
def hookFailEnv : Env :=
  { happyEnv with
    NOTIFICATION_HOOK := some "https://hooks.example/?text=",
    axiosGet := fun _ => Except.error { msg := "Network Error", code := none } }

/-- C9: the typed-message builders are pure and deterministic for the
fixed domain constants: `createVoteBySigMessage` yields primary type
"VoteEmitted" with message fields id and support under the
"dYdX Governance" domain, and `createDelegateBySigMessage` yields primary
type "Delegate" with message fields delegatee, nonce and expiry under the
"dYdX" domain. -/
theorem messageBuilders_shape :
    (∀ (id : Nat) (support : Bool),
      (createVoteBySigMessage id support).primaryType = "VoteEmitted" ∧
      (createVoteBySigMessage id support).message = MessageBody.voteEmitted id support ∧
      (createVoteBySigMessage id support).domain =
        { name := "dYdX Governance", version := none, chainId := 1,
          verifyingContract := "0x7E9B1672616FF6D6629Ef2879419aaE79A9018D2" }) ∧
    (∀ (delegatee : String) (nonce expiry : Nat),
      (createDelegateBySigMessage delegatee nonce expiry).primaryType = "Delegate" ∧
      (createDelegateBySigMessage delegatee nonce expiry).message =
        MessageBody.delegation delegatee nonce expiry ∧
      (createDelegateBySigMessage delegatee nonce expiry).domain =
        { name := "dYdX", version := some 1, chainId := 1,
          verifyingContract := "0x92D6C1e31e14520e676a687F0a93788B716BEff5" }) := by
  exact ⟨fun _ _ => ⟨rfl, rfl, rfl⟩, fun _ _ _ => ⟨rfl, rfl, rfl⟩⟩

/-- C2: for every environment and every defined, well-formed input pair,
`canVote` returns the generic chain-query error with code 500, because
the vote-receipt fetch inside its `try` block references the undefined
identifier `governorBravo`; the success return and the later business
rules are unreachable. -/
theorem canVote_always_chainError (env : Env) (address : String) (proposalId : Nat)
    (h : isAddress (jsToLowerCase address) = true) :
    canVote env (some address) (some proposalId) = Except.error blockchainError := by
  simp [canVote, canVoteFetch, wrapChainError, governorBravoRefError, blockchainError, h]

/-- Witness for C2 at a concrete well-formed input. -/
theorem canVote_always_chainError_witness :
    canVote happyEnv (some sampleAddress) (some 1) = Except.error blockchainError :=
  canVote_always_chainError happyEnv sampleAddress 1 (by decide)

/-- C1: evaluation of `vote` at an input meeting every eligibility
precondition of the spec's happy-path scenario (balance and voting power
150 against threshold 100, active proposal window, zero receipt, pending
flags clear, matching signature): instead of persisting a
PendingTransaction, the call fails with the generic 500 chain-query
error and writes nothing, because `canVote` dereferences the undefined
identifier `governorBravo`. -/
theorem vote_happyPath_governorBravo_bug :
    happyEnv.MIN_COMP = 100 ∧
    happyEnv.balanceOf sampleAddress = Except.ok 150 ∧
    happyEnv.getPowerAtBlock sampleAddress 100 0 = Except.ok 150 ∧
    happyEnv.getProposalById 1 =
      Except.ok { startBlock := 100, endBlock := 10000, canceled := false } ∧
    happyEnv.getBlockNumber = Except.ok 101 ∧
    happyEnv.getVoteOnProposal 1 sampleAddress = Except.ok { votingPower := 0 } ∧
    happyEnv.voteAllowed sampleAddress 1 = Except.ok () ∧
    happyEnv.recoverTypedSignature (createVoteBySigMessage 1 true)
        ("0x01" ++ jsSubstring2 "0x02" ++ jsSubstring2 "0x1b") = Except.ok sampleAddress ∧
    vote happyEnv (some sampleAddress) (some 1) (some true)
        (some "0x1b") (some "0x01") (some "0x02") = (Except.error blockchainError, []) := by
  refine ⟨rfl, rfl, rfl, rfl, rfl, rfl, rfl, rfl, ?_⟩
  rfl

/-- C5: the proposal-window rule of the voting eligibility check (the
first business rule of `canVote`, applied to the fetched chain data)
fails with the ProposalNotActive error exactly when it is not the case
that `startBlock < currentBlock < endBlock - 2400` or the proposal is
canceled; in particular it rejects whenever `currentBlock <= startBlock`,
does not fire at `startBlock + 1` inside the margin on a live proposal,
and rejects again from `endBlock - 2400` on. -/
theorem canVoteChecks_proposalNotActive (env : Env) (address : String) (d : CanVoteData) :
    (canVoteChecks env address d = Except.error proposalNotActiveError ↔
      (¬(d.proposal.startBlock < d.currentBlock ∧
          (d.currentBlock : Int) < (d.proposal.endBlock : Int) - 2400) ∨
        d.proposal.canceled = true)) ∧
    (d.currentBlock ≤ d.proposal.startBlock →
      canVoteChecks env address d = Except.error proposalNotActiveError) ∧
    (d.currentBlock = d.proposal.startBlock + 1 →
      (d.currentBlock : Int) < (d.proposal.endBlock : Int) - 2400 →
      d.proposal.canceled = false →
      canVoteChecks env address d ≠ Except.error proposalNotActiveError) ∧
    ((d.proposal.endBlock : Int) - 2400 ≤ (d.currentBlock : Int) →
      canVoteChecks env address d = Except.error proposalNotActiveError) := by
  have hiff : canVoteChecks env address d = Except.error proposalNotActiveError ↔
      (¬(d.proposal.startBlock < d.currentBlock ∧
          (d.currentBlock : Int) < (d.proposal.endBlock : Int) - 2400) ∨
        d.proposal.canceled = true) := by
    unfold canVoteChecks
    by_cases hc : (¬(d.proposal.startBlock < d.currentBlock ∧
        (d.currentBlock : Int) < (d.proposal.endBlock : Int) - 2400) ∨
        d.proposal.canceled = true)
    · rw [if_pos hc]
      exact iff_of_true rfl hc
    · rw [if_neg hc]
      constructor
      · intro h
        exfalso
        by_cases h2 : d.votesDelegated < env.MIN_COMP ∧ isWhitelisted address = false
        · rw [if_pos h2] at h
          exact absurd (congrArg (fun x => x) h)
            (by simp [votingPowerTooLowError, proposalNotActiveError])
        · rw [if_neg h2] at h
          by_cases h3 : 0 < d.receipt.votingPower
          · rw [if_pos h3] at h
            exact absurd h (by simp [alreadyVotedError, proposalNotActiveError])
          · rw [if_neg h3] at h
            exact absurd h (by simp)
      · intro h
        exact absurd h hc
  refine ⟨hiff, ?_, ?_, ?_⟩
  · intro h
    exact hiff.mpr (Or.inl (by omega))
  · intro h1 h2 h3 hcon
    rcases hiff.mp hcon with h | h
    · exact h ⟨by omega, h2⟩
    · rw [h3] at h
      exact Bool.false_ne_true h
  · intro h
    exact hiff.mpr (Or.inl (by omega))

/-- Witness for C5 at concrete data: a canceled-free proposal with the
current block exactly at the start block is rejected as not active. -/
theorem canVoteChecks_proposalNotActive_witness :
    canVoteChecks happyEnv sampleAddress
        { proposal := { startBlock := 100, endBlock := 10000, canceled := false },
          receipt := { votingPower := 0 }, currentBlock := 100, votesDelegated := 150 } =
      Except.error proposalNotActiveError :=
  (canVoteChecks_proposalNotActive happyEnv sampleAddress _).2.1 (by decide)

/-- C6: when the input addresses pass validation, the fan-out fetch
succeeds and the balance rule passes, `canDelegate` fails with the
NoOpDelegation error exactly when a non-sentinel delegatee was specified
and it equals, after lowercasing, both the current delegate-for-voting
and the current delegate-for-proposition; if the delegatee is the
sentinel or differs from at least one of the two, the check passes. -/
theorem canDelegate_noOpDelegation_iff (env : Env) (address delegatee : String)
    (fd : DelegateFetch)
    (ha : isAddress (jsToLowerCase address) = true)
    (hd : jsToLowerCase delegatee = "0x" ∨ isAddress (jsToLowerCase delegatee) = true)
    (hfetch : canDelegateFetch env (jsToLowerCase address) = Except.ok fd)
    (hbal : env.MIN_COMP ≤ fd.dydxBalance) :
    (canDelegate env (some address) (some delegatee) = Except.error noOpDelegationError ↔
      (jsToLowerCase delegatee ≠ "0x" ∧
       jsToLowerCase delegatee = jsToLowerCase fd.currentDelegateeVoting ∧
       jsToLowerCase delegatee = jsToLowerCase fd.currentDelegateeProposition)) ∧
    ((jsToLowerCase delegatee = "0x" ∨
      jsToLowerCase delegatee ≠ jsToLowerCase fd.currentDelegateeVoting ∨
      jsToLowerCase delegatee ≠ jsToLowerCase fd.currentDelegateeProposition) →
      canDelegate env (some address) (some delegatee) = Except.ok ()) := by
  have hstep : canDelegate env (some address) (some delegatee) =
      (if jsToLowerCase delegatee ≠ "0x" ∧
          jsToLowerCase delegatee = jsToLowerCase fd.currentDelegateeVoting ∧
          jsToLowerCase delegatee = jsToLowerCase fd.currentDelegateeProposition then
        Except.error noOpDelegationError
      else Except.ok ()) := by
    unfold canDelegate
    simp only [Option.getD_some, hfetch]
    rw [if_neg (by
      intro hcon
      rcases hd with h0 | hv
      · exact hcon.1 h0
      · rw [hv] at hcon
        simp at hcon)]
    rw [if_neg (by simp [ha])]
    rw [if_neg (by omega)]
  rw [hstep]
  constructor
  · by_cases hno : (jsToLowerCase delegatee ≠ "0x" ∧
        jsToLowerCase delegatee = jsToLowerCase fd.currentDelegateeVoting ∧
        jsToLowerCase delegatee = jsToLowerCase fd.currentDelegateeProposition)
    · rw [if_pos hno]
      exact iff_of_true rfl hno
    · rw [if_neg hno]
      constructor
      · intro h
        cases h
      · intro h
        exact absurd h hno
  · intro h
    rw [if_neg (by
      intro hcon
      rcases h with h0 | h1 | h2
      · exact hcon.1 h0
      · exact h1 hcon.2.1
      · exact h2 hcon.2.2)]

/-- Witness for C6: with all-zero current delegates, delegating to a
different concrete address passes the no-op check and succeeds. -/
theorem canDelegate_noOpDelegation_iff_witness :
    canDelegate happyEnv (some sampleAddress) (some sampleDelegatee) = Except.ok () :=
  (canDelegate_noOpDelegation_iff happyEnv sampleAddress sampleDelegatee
      { dydxBalance := 150, currentDelegateeVoting := zeroAddress,
        currentDelegateeProposition := zeroAddress }
      (by decide) (Or.inr (by decide)) (by rfl) (by decide)).2
    (Or.inr (Or.inl (by decide)))

/-- C4: whenever signature recovery throws, or the recovered signer
differs case-insensitively from the claimed address, `vote` fails with
the InvalidSignature error (code 422) and its effect trace is empty: the
database insert is never reached. -/
theorem vote_signerMismatch_rejected (env : Env) (address : String) (proposalId : Nat)
    (support : Bool) (v r s : String)
    (h : ∀ sigAddress,
      env.recoverTypedSignature (createVoteBySigMessage proposalId support)
          (r ++ jsSubstring2 s ++ jsSubstring2 v) = Except.ok sigAddress →
      jsToLowerCase sigAddress ≠ jsToLowerCase address) :
    vote env (some address) (some proposalId) (some support) (some v) (some r) (some s) =
      (Except.error invalidSignatureError, []) := by
  cases hrec : env.recoverTypedSignature (createVoteBySigMessage proposalId support)
      (r ++ jsSubstring2 s ++ jsSubstring2 v) with
  | error e => simp only [vote, hrec]
  | ok sigAddress =>
    simp only [vote, hrec]
    rw [if_pos (fun hcon => h sigAddress hrec hcon.symm)]

/-- Witness for C4: the recovery oracle of `happyEnv` attributes the
signature to `sampleAddress`, so a claim by `sampleDelegatee` is
rejected with InvalidSignature and nothing is persisted. -/
theorem vote_signerMismatch_rejected_witness :
    vote happyEnv (some sampleDelegatee) (some 1) (some true)
        (some "0x1b") (some "0x01") (some "0x02") =
      (Except.error invalidSignatureError, []) :=
  vote_signerMismatch_rejected happyEnv sampleDelegatee 1 true "0x1b" "0x01" "0x02"
    (by
      intro sigAddress hsa
      have hv : sampleAddress = sigAddress := by
        simpa [happyEnv] using hsa
      rw [← hv]
      decide)

/-- C7 counterexample: calling the delegation eligibility check with a
missing (undefined) source address does not fail with the InvalidInput
422 error the claim requires; line 134 (`address.toString()`) raises an
unstructured TypeError, whose `code` is not 422. -/
theorem canDelegate_undefined_address_cex :
    canDelegate happyEnv none (some sampleDelegatee) =
      Except.error undefinedToStringTypeError ∧
    undefinedToStringTypeError.code ≠ some 422 :=
  ⟨rfl, by decide⟩

/-- C7 amended: for every call with a defined source address that is not
a valid address, or with a present non-sentinel delegatee that is not a
valid address, `canDelegate` fails with an InvalidInput error carrying
code 422, for every environment alike (hence before any remote query is
issued); a missing/undefined source address instead raises the
unstructured `toString` TypeError, also before any remote query. -/
theorem canDelegate_invalidInput_422 :
    (∀ (env : Env) (address : String) (delegatee? : Option String),
      (isAddress (jsToLowerCase address) = false ∨
        (∃ d, delegatee? = some d ∧ jsToLowerCase d ≠ "0x" ∧
          isAddress (jsToLowerCase d) = false)) →
      ∃ e, canDelegate env (some address) delegatee? = Except.error e ∧
        e.code = some 422) ∧
    (∀ (env : Env) (delegatee? : Option String),
      canDelegate env none delegatee? = Except.error undefinedToStringTypeError) := by
  constructor
  · intro env address delegatee? h
    simp only [canDelegate]
    by_cases hdel : jsToLowerCase (delegatee?.getD "0x") ≠ "0x" ∧
        isAddress (jsToLowerCase (delegatee?.getD "0x")) = false
    · exact ⟨invalidDelegateeAddressError, by rw [if_pos hdel], rfl⟩
    · rw [if_neg hdel]
      have haddr : isAddress (jsToLowerCase address) = false := by
        rcases h with h | ⟨d, hd, hne, hinv⟩
        · exact h
        · exact absurd ⟨by simpa [hd] using hne, by simpa [hd] using hinv⟩ hdel
      rw [if_pos haddr]
      exact ⟨invalidFromAddressError, rfl, rfl⟩
  · intro env delegatee?
    simp only [canDelegate]

/-- Witness for C7's amended claim: a malformed source address is
rejected with a 422 error under the concrete environment. -/
theorem canDelegate_invalidInput_422_witness :
    ∃ e, canDelegate happyEnv (some "0xzz") none = Except.error e ∧ e.code = some 422 :=
  canDelegate_invalidInput_422.1 happyEnv "0xzz" none (Or.inl (by decide))

/-- C3 counterexample: under `hookFailEnv` a delegation that reaches the
persistence step (the insert appears in the effect trace) nevertheless
fails overall with the webhook's network error, because the notification
GET is awaited with no error handling; the failure is not swallowed. -/
theorem notification_failure_fails_delegate_cex :
    (delegate hookFailEnv (some sampleAddress) (some sampleDelegatee) (some 0) (some 1)
        (some "0x1b") (some "0x01") (some "0x02")).1 =
      Except.error { msg := "Network Error", code := none } ∧
    Effect.insertDelegate
        { «from» := sampleAddress, delegatee := sampleDelegatee, v := "0x1b", r := "0x01",
          s := "0x02", nonce := 0, expiry := 1, type := "delegate", createdAt := 0,
          executed := false } ∈
      (delegate hookFailEnv (some sampleAddress) (some sampleDelegatee) (some 0) (some 1)
        (some "0x1b") (some "0x01") (some "0x02")).2 := by
  constructor
  · rfl
  · decide

/-- C3 amended: when the notification webhook is configured and its GET
request fails, any `vote` or `delegate` call that reached the persistence
step (its trace contains the insert) fails overall with exactly the
webhook's error: the error propagates to the caller instead of being
swallowed, while the inserted record remains in the trace. -/
theorem notification_failure_propagates :
    (∀ (env : Env) (a : String) (p : Nat) (sup : Bool) (v r s : String)
        (hook : String) (err : Err),
      env.NOTIFICATION_HOOK = some hook →
      env.axiosGet (hook ++ "New dydx.vote voting sig") = Except.error err →
      (∃ tx, Effect.insertVote tx ∈
        (vote env (some a) (some p) (some sup) (some v) (some r) (some s)).2) →
      (vote env (some a) (some p) (some sup) (some v) (some r) (some s)).1 =
        Except.error err) ∧
    (∀ (env : Env) (a d : String) (n e : Nat) (v r s : String)
        (hook : String) (err : Err),
      env.NOTIFICATION_HOOK = some hook →
      env.axiosGet (hook ++ "New dydx.vote delegation sig") = Except.error err →
      (∃ tx, Effect.insertDelegate tx ∈
        (delegate env (some a) (some d) (some n) (some e) (some v) (some r) (some s)).2) →
      (delegate env (some a) (some d) (some n) (some e) (some v) (some r) (some s)).1 =
        Except.error err) := by
  constructor
  · intro env a p sup v r s hook err hhook hget hins
    cases hrec : env.recoverTypedSignature (createVoteBySigMessage p sup)
        (r ++ jsSubstring2 s ++ jsSubstring2 v) with
    | error e =>
      simp only [vote, hrec] at hins
      simp at hins
    | ok sa =>
      by_cases hmatch : jsToLowerCase a ≠ jsToLowerCase sa
      · simp only [vote, hrec, if_pos hmatch] at hins
        simp at hins
      · cases hcv : canVote env (some (jsToLowerCase a)) (some p) with
        | error e =>
          simp only [vote, hrec, if_neg hmatch, hcv] at hins
          simp at hins
        | ok u =>
          simp only [vote, hrec, if_neg hmatch, hcv, hhook, hget]
  · intro env a d n e v r s hook err hhook hget hins
    cases hrec : env.recoverTypedSignature
        (createDelegateBySigMessage (jsToLowerCase d) n e)
        (r ++ jsSubstring2 s ++ jsSubstring2 v) with
    | error e2 =>
      simp only [delegate, hrec] at hins
      simp at hins
    | ok sa =>
      by_cases hmatch : jsToLowerCase sa ≠ jsToLowerCase a
      · simp only [delegate, hrec, if_pos hmatch] at hins
        simp at hins
      · cases hcd : canDelegate env (some (jsToLowerCase a)) (some (jsToLowerCase d)) with
        | error e2 =>
          simp only [delegate, hrec, if_neg hmatch, hcd] at hins
          simp at hins
        | ok u =>
          simp only [delegate, hrec, if_neg hmatch, hcd, hhook, hget]

/-- Witness for C3's amended claim at the concrete failing-webhook
environment. -/
theorem notification_failure_propagates_witness :
    (delegate hookFailEnv (some sampleAddress) (some sampleDelegatee) (some 0) (some 1)
        (some "0x1b") (some "0x01") (some "0x02")).1 =
      Except.error { msg := "Network Error", code := none } :=
  notification_failure_propagates.2 hookFailEnv sampleAddress sampleDelegatee 0 1
    "0x1b" "0x01" "0x02" "https://hooks.example/?text="
    { msg := "Network Error", code := none } rfl rfl
    ⟨{ «from» := sampleAddress, delegatee := sampleDelegatee, v := "0x1b", r := "0x01",
       s := "0x02", nonce := 0, expiry := 1, type := "delegate", createdAt := 0,
       executed := false },
      by decide⟩

theorem vote_insert_from (env : Env) (a : String) (p : Nat) (sup : Bool)
    (v r s : String) (tx : VoteTx)
    (h : Effect.insertVote tx ∈
      (vote env (some a) (some p) (some sup) (some v) (some r) (some s)).2) :
    tx.«from» = jsToLowerCase a := by
  cases hrec : env.recoverTypedSignature (createVoteBySigMessage p sup)
      (r ++ jsSubstring2 s ++ jsSubstring2 v) with
  | error e =>
    simp only [vote, hrec] at h
    simp at h
  | ok sa =>
    by_cases hmatch : jsToLowerCase a ≠ jsToLowerCase sa
    · simp only [vote, hrec, if_pos hmatch] at h
      simp at h
    · cases hcv : canVote env (some (jsToLowerCase a)) (some p) with
      | error e =>
        simp only [vote, hrec, if_neg hmatch, hcv] at h
        simp at h
      | ok u =>
        cases hhook : env.NOTIFICATION_HOOK with
        | none =>
          simp only [vote, hrec, if_neg hmatch, hcv, hhook] at h
          simp at h
          rw [h]
        | some hook =>
          cases hax : env.axiosGet (hook ++ "New dydx.vote voting sig") with
          | ok u2 =>
            simp only [vote, hrec, if_neg hmatch, hcv, hhook, hax] at h
            simp at h
            rw [h]
          | error e2 =>
            simp only [vote, hrec, if_neg hmatch, hcv, hhook, hax] at h
            simp at h
            rw [h]

theorem delegate_insert_fields (env : Env) (a d : String) (n e : Nat)
    (v r s : String) (tx : DelegateTx)
    (h : Effect.insertDelegate tx ∈
      (delegate env (some a) (some d) (some n) (some e) (some v) (some r) (some s)).2) :
    tx.«from» = jsToLowerCase a ∧ tx.delegatee = jsToLowerCase d ∧
      tx.nonce = n ∧ tx.expiry = e := by
  cases hrec : env.recoverTypedSignature (createDelegateBySigMessage (jsToLowerCase d) n e)
      (r ++ jsSubstring2 s ++ jsSubstring2 v) with
  | error e2 =>
    simp only [delegate, hrec] at h
    simp at h
  | ok sa =>
    by_cases hmatch : jsToLowerCase sa ≠ jsToLowerCase a
    · simp only [delegate, hrec, if_pos hmatch] at h
      simp at h
    · cases hcd : canDelegate env (some (jsToLowerCase a)) (some (jsToLowerCase d)) with
      | error e2 =>
        simp only [delegate, hrec, if_neg hmatch, hcd] at h
        simp at h
      | ok u =>
        cases hhook : env.NOTIFICATION_HOOK with
        | none =>
          simp only [delegate, hrec, if_neg hmatch, hcd, hhook] at h
          simp at h
          rw [h]
          exact ⟨rfl, rfl, rfl, rfl⟩
        | some hook =>
          cases hax : env.axiosGet (hook ++ "New dydx.vote delegation sig") with
          | ok u2 =>
            simp only [delegate, hrec, if_neg hmatch, hcd, hhook, hax] at h
            simp at h
            rw [h]
            exact ⟨rfl, rfl, rfl, rfl⟩
          | error e2 =>
            simp only [delegate, hrec, if_neg hmatch, hcd, hhook, hax] at h
            simp at h
            rw [h]
            exact ⟨rfl, rfl, rfl, rfl⟩

/-- C8: every transaction handed to the persistence layer has its
address fields already lowercased (`from`, and `delegatee` for
delegations), and the core's address comparisons operate on lowercased
values: the `vote` signer match and the whole of `canDelegate` (signer
and delegatee-vs-current-delegate comparisons) are invariant under the
case of the submitted addresses, and whitelist membership only ever
holds for lowercase entries. -/
theorem addresses_lowercased :
    (∀ (env : Env) (a : String) (p : Nat) (sup : Bool) (v r s : String) (tx : VoteTx),
      Effect.insertVote tx ∈
        (vote env (some a) (some p) (some sup) (some v) (some r) (some s)).2 →
      tx.«from» = jsToLowerCase tx.«from») ∧
    (∀ (env : Env) (a d : String) (n e : Nat) (v r s : String) (tx : DelegateTx),
      Effect.insertDelegate tx ∈
        (delegate env (some a) (some d) (some n) (some e) (some v) (some r) (some s)).2 →
      tx.«from» = jsToLowerCase tx.«from» ∧ tx.delegatee = jsToLowerCase tx.delegatee) ∧
    (∀ (env : Env) (a : String) (p : Nat) (sup : Bool) (v r s : String),
      vote env (some a) (some p) (some sup) (some v) (some r) (some s) =
        vote env (some (jsToLowerCase a)) (some p) (some sup) (some v) (some r) (some s)) ∧
    (∀ (env : Env) (a d : String),
      canDelegate env (some a) (some d) =
        canDelegate env (some (jsToLowerCase a)) (some (jsToLowerCase d))) ∧
    (∀ a : String, isWhitelisted a = true → a = jsToLowerCase a) := by
  refine ⟨?_, ?_, ?_, ?_, ?_⟩
  · intro env a p sup v r s tx h
    rw [vote_insert_from env a p sup v r s tx h, jsToLowerCase_idem]
  · intro env a d n e v r s tx h
    obtain ⟨h1, h2, -, -⟩ := delegate_insert_fields env a d n e v r s tx h
    rw [h1, h2, jsToLowerCase_idem, jsToLowerCase_idem]
    exact ⟨rfl, rfl⟩
  · intro env a p sup v r s
    simp only [vote, jsToLowerCase_idem]
  · intro env a d
    simp only [canDelegate, Option.getD_some, jsToLowerCase_idem]
  · intro a h
    simp only [isWhitelisted, List.contains, List.elem_eq_mem, List.mem_cons,
      List.not_mem_nil, or_false, decide_eq_true_eq] at h
    rcases h with h | h
    · rw [h]; decide
    · rw [h]; decide

/-- The delegation transaction produced by the concrete C8 witness run. -/
def witnessDelegateTx : DelegateTx :=
  { «from» := sampleAddress, delegatee := sampleDelegatee, v := "0x1b", r := "0x01",
    s := "0x02", nonce := 0, expiry := 1, type := "delegate", createdAt := 0,
    executed := false }

/-- Witness for C8: a concrete successful delegation stores lowercase
`from` and `delegatee` fields. -/
theorem addresses_lowercased_witness :
    witnessDelegateTx.«from» = jsToLowerCase witnessDelegateTx.«from» ∧
    witnessDelegateTx.delegatee = jsToLowerCase witnessDelegateTx.delegatee :=
  addresses_lowercased.2.1 happyEnv sampleAddress sampleDelegatee 0 1 "0x1b" "0x01" "0x02"
    witnessDelegateTx (by decide)

/-- Replaces the expiry of an insert-delegation effect, leaving other
effects unchanged; used to state that expiry influences nothing but the
stored field. -/
def setDelegateExpiry (e : Nat) : Effect → Effect
  | Effect.insertDelegate tx => Effect.insertDelegate { tx with expiry := e }
  | eff => eff

/-- C10: `delegate` checks nothing about the expiry value beyond
requiring it to be defined.  If the recovery oracle yields the same
result for the messages built from two expiry values (the signature
matches in both runs), the two runs have the same result and the same
effect trace except for the stored expiry field; the supplied expiry is
stored verbatim in the inserted transaction; and an undefined expiry is
the only expiry-related rejection (InvalidInput 422). -/
theorem delegate_expiry_unchecked (env : Env) (a d : String) (n e1 e2 : Nat)
    (v r s : String)
    (hrec : env.recoverTypedSignature (createDelegateBySigMessage (jsToLowerCase d) n e1)
              (r ++ jsSubstring2 s ++ jsSubstring2 v) =
            env.recoverTypedSignature (createDelegateBySigMessage (jsToLowerCase d) n e2)
              (r ++ jsSubstring2 s ++ jsSubstring2 v)) :
    ((delegate env (some a) (some d) (some n) (some e1) (some v) (some r) (some s)).1 =
      (delegate env (some a) (some d) (some n) (some e2) (some v) (some r) (some s)).1) ∧
    ((delegate env (some a) (some d) (some n) (some e2) (some v) (some r) (some s)).2 =
      ((delegate env (some a) (some d) (some n) (some e1) (some v) (some r) (some s)).2).map
        (setDelegateExpiry e2)) ∧
    (∀ tx, Effect.insertDelegate tx ∈
        (delegate env (some a) (some d) (some n) (some e1) (some v) (some r) (some s)).2 →
      tx.expiry = e1) ∧
    (delegate env (some a) (some d) (some n) none (some v) (some r) (some s) =
      (Except.error invalidInputError, [])) := by
  refine ?_
  cases hrec1 : env.recoverTypedSignature (createDelegateBySigMessage (jsToLowerCase d) n e1)
      (r ++ jsSubstring2 s ++ jsSubstring2 v) with
  | error err =>
    have hrec2 : env.recoverTypedSignature (createDelegateBySigMessage (jsToLowerCase d) n e2)
        (r ++ jsSubstring2 s ++ jsSubstring2 v) = Except.error err := by
      rw [← hrec, hrec1]
    refine ⟨?_, ?_, ?_, rfl⟩
    · simp only [delegate, hrec1, hrec2]
    · simp only [delegate, hrec1, hrec2, List.map_nil]
    · intro tx htx
      simp only [delegate, hrec1] at htx
      simp at htx
  | ok sa =>
    have hrec2 : env.recoverTypedSignature (createDelegateBySigMessage (jsToLowerCase d) n e2)
        (r ++ jsSubstring2 s ++ jsSubstring2 v) = Except.ok sa := by
      rw [← hrec, hrec1]
    by_cases hmatch : jsToLowerCase sa ≠ jsToLowerCase a
    · refine ⟨?_, ?_, ?_, rfl⟩
      · simp only [delegate, hrec1, hrec2, if_pos hmatch]
      · simp only [delegate, hrec1, hrec2, if_pos hmatch, List.map_nil]
      · intro tx htx
        simp only [delegate, hrec1, if_pos hmatch] at htx
        simp at htx
    · cases hcd : canDelegate env (some (jsToLowerCase a)) (some (jsToLowerCase d)) with
      | error err =>
        refine ⟨?_, ?_, ?_, rfl⟩
        · simp only [delegate, hrec1, hrec2, if_neg hmatch, hcd]
        · simp only [delegate, hrec1, hrec2, if_neg hmatch, hcd, List.map_nil]
        · intro tx htx
          simp only [delegate, hrec1, if_neg hmatch, hcd] at htx
          simp at htx
      | ok u =>
        cases hhook : env.NOTIFICATION_HOOK with
        | none =>
          refine ⟨?_, ?_, ?_, rfl⟩
          · simp only [delegate, hrec1, hrec2, if_neg hmatch, hcd, hhook]
          · simp only [delegate, hrec1, hrec2, if_neg hmatch, hcd, hhook,
              List.map_cons, List.map_nil, setDelegateExpiry]
          · intro tx htx
            simp only [delegate, hrec1, if_neg hmatch, hcd, hhook] at htx
            simp at htx
            rw [htx]
        | some hook =>
          cases hax : env.axiosGet (hook ++ "New dydx.vote delegation sig") with
          | ok u2 =>
            refine ⟨?_, ?_, ?_, rfl⟩
            · simp only [delegate, hrec1, hrec2, if_neg hmatch, hcd, hhook, hax]
            · simp only [delegate, hrec1, hrec2, if_neg hmatch, hcd, hhook, hax,
                List.map_cons, List.map_nil, setDelegateExpiry]
            · intro tx htx
              simp only [delegate, hrec1, if_neg hmatch, hcd, hhook, hax] at htx
              simp at htx
              rw [htx]
          | error err2 =>
            refine ⟨?_, ?_, ?_, rfl⟩
            · simp only [delegate, hrec1, hrec2, if_neg hmatch, hcd, hhook, hax]
            · simp only [delegate, hrec1, hrec2, if_neg hmatch, hcd, hhook, hax,
                List.map_cons, List.map_nil, setDelegateExpiry]
            · intro tx htx
              simp only [delegate, hrec1, if_neg hmatch, hcd, hhook, hax] at htx
              simp at htx
              rw [htx]

/-- Witness for C10: under the constant recovery oracle of `happyEnv`,
an expiry of 1 and an expiry of 999999 yield the same result. -/
theorem delegate_expiry_unchecked_witness :
    (delegate happyEnv (some sampleAddress) (some sampleDelegatee) (some 0) (some 1)
        (some "0x1b") (some "0x01") (some "0x02")).1 =
      (delegate happyEnv (some sampleAddress) (some sampleDelegatee) (some 0) (some 999999)
        (some "0x1b") (some "0x01") (some "0x02")).1 :=
  (delegate_expiry_unchecked happyEnv sampleAddress sampleDelegatee 0 1 999999
    "0x1b" "0x01" "0x02" rfl).1
